import Mathlib

/-!
# Koa tracing middleware (`packages/koa/lib/koa_mw.js`)

A shallow embedding of the `koa_mw` module: the configuration check of
`createMiddlewareSegment`, the per-request middleware it returns, and the
collaborators of the tracing SDK that the middleware calls.  Mutable
JavaScript objects live in an explicit `World`; every call the middleware
makes is appended to the world's log, so that the order and the number of the
calls can be stated.
-/

namespace KoaMW

/-! ## JavaScript values -/

/-- A thrown JavaScript error, identified by its message. -/
structure JSError where
  message : String
deriving DecidableEq, Repr

/-- JavaScript values, as far as `!v` and `typeof v` tell them apart. -/
inductive JSVal where
  | undefined
  | null
  | boolean (b : Bool)
  | number (n : Int)
  | nan
  | bigint (n : Int)
  | string (s : String)
  | symbol (id : Nat)
  | object (id : Nat)
  | function (id : Nat)
deriving DecidableEq, Repr

/-- The boolean a value converts to: `!v` is the negation of `v.truthy`. -/
def JSVal.truthy : JSVal → Bool
  | .undefined => false
  | .null => false
  | .boolean b => b
  | .number n => n != 0
  | .nan => false
  | .bigint n => n != 0
  | .string s => s != ""
  | .symbol _ => true
  | .object _ => true
  | .function _ => true

/-- The JavaScript `typeof` operator. -/
def JSVal.typeof : JSVal → String
  | .undefined => "undefined"
  | .null => "object"
  | .boolean _ => "boolean"
  | .number _ => "number"
  | .nan => "number"
  | .bigint _ => "bigint"
  | .string _ => "string"
  | .symbol _ => "symbol"
  | .object _ => "object"
  | .function _ => "function"

/-- How a promise settles. -/
inductive Settled where
  | fulfilled
  | rejected (error : JSError)
deriving DecidableEq, Repr

/-! ## Segments and the world -/

/-- A segment record.  A flag is `none` while the property is absent from the
object; `cause` holds `cause.exceptions` once a cause exists. -/
structure Segment where
  name : Option JSVal
  inProgress : Bool
  error : Option Bool
  fault : Option Bool
  throttle : Option Bool
  cause : Option (List JSError)
deriving DecidableEq, Repr

/-- The two completion notifications of a response object. -/
inductive ResponseEvent where
  | finish
  | close
deriving DecidableEq, Repr

/-- A completion observer: the response object it is registered on, the
notification it listens to, and the segment it finalises. -/
structure Observer where
  response : Nat
  event : ResponseEvent
  segment : Nat
deriving DecidableEq, Repr

/-- What the downstream handler chain can see when it is invoked:
`ctx.req.segment`, the current segment of the store lookup, and the active
context of the namespace. -/
structure View where
  reqSegment : Option Nat
  currentSegment : Option Nat
  context : Option Nat
deriving DecidableEq, Repr

/-- The calls made while a request is handled. -/
inductive Event where
  | traceRequestResponseCycle (request response : Nat) (segment : Option Nat)
  | getNamespace
  | runPromise
  | enter (context : Nat)
  | exit (context : Nat)
  | setSegment (segment : Nat)
  | assignReqSegment (req segment : Nat)
  | next (view : View) (result : Settled)
  | addError (segment : Nat) (error : JSError)
deriving DecidableEq, Repr

/-- The mutable state the middleware works on.  Objects are named by numbers;
a segment is named by its index in `heap`. -/
structure World where
  /-- The field `mwUtils.defaultName`. -/
  defaultName : Option JSVal
  /-- The segments created so far. -/
  heap : List Segment
  /-- The observers registered on response objects, oldest first. -/
  observers : List Observer
  /-- The `segment` property of objects: `(object, segment)`, newest first. -/
  segmentField : List (Nat × Nat)
  /-- The contexts of the namespace, each with its binding of the segment. -/
  contexts : List (Option Nat)
  /-- The entered contexts, the active one first. -/
  active : List Nat
  /-- The calls made so far, oldest first. -/
  log : List Event
deriving DecidableEq, Repr

/-- Append a call to the log. -/
def World.record (e : Event) (w : World) : World :=
  { w with log := w.log ++ [e] }

/-- The calls logged between the world `w` and the later world `w1`. -/
def newEvents (w w1 : World) : List Event :=
  w1.log.drop w.log.length

/-- The Koa context of one request: the Koa request object `ctx.request`, the
Koa response object `ctx.response` and the underlying request object
`ctx.req`, each present on every context. -/
structure Ctx where
  request : Nat
  response : Nat
  req : Nat
deriving DecidableEq, Repr

/-- The downstream handler chain `next`, by what it sees and how the promise
it returns settles. -/
abbrev Handler := View → Settled

/-- The behaviour of the tracing SDK in the process: the propagation mode and,
for each collaborator the middleware calls, the error it throws if it fails. -/
structure Sdk where
  automaticMode : Bool
  traceThrows : Option JSError
  getNamespaceThrows : Option JSError
  runPromiseThrows : Option JSError
  setSegmentThrows : Option JSError
deriving DecidableEq, Repr

/-- The `segment` property of an object, `none` when it has none. -/
def World.segmentOf (w : World) (obj : Nat) : Option Nat :=
  w.segmentField.lookup obj

/-- Modelled from the spec: `AWSXRay.getSegment` is not in the source; the
current segment is the one bound in the active context (section 4.4). -/
def World.getSegment (w : World) : Option Nat :=
  match w.active with
  | [] => none
  | c :: _ => (w.contexts[c]?).join

/-- What the handler chain of the request `ctx` sees in the world `w`. -/
def World.view (w : World) (ctx : Ctx) : View :=
  { reqSegment := w.segmentOf ctx.req
    currentSegment := w.getSegment
    context := w.active.head? }

/-! ## Collaborators of the SDK -/

/-- Modelled from the spec: `mwUtils.setDefaultName` is not in the source; the
default segment name supplied at construction is stored (section 6). -/
def setDefaultName (name : JSVal) (w : World) : World :=
  { w with defaultName := some name }

/-- Modelled from the spec: `Segment.init` is not in the source; a new segment
is in progress and carries no flag and no cause (section 4.2). -/
def Segment.init (name : Option JSVal) : Segment :=
  { name := name, inProgress := true, error := none, fault := none,
    throttle := none, cause := none }

/-- Modelled from the spec: `mwUtils.traceRequestResponseCycle` is not in the
source; it creates the segment of the request under the default name and
registers the "finish" and the "close" observer on the response object
(section 4.3, steps 1 and 4). -/
def traceRequestResponseCycle (sdk : Sdk) (request response : Nat) (w : World) :
    Except JSError Nat × World :=
  match sdk.traceThrows with
  | some e => (.error e, w.record (.traceRequestResponseCycle request response none))
  | none =>
    let segment := w.heap.length
    (.ok segment,
      { w with
        heap := w.heap ++ [Segment.init w.defaultName]
        observers := w.observers ++
          [⟨response, .finish, segment⟩, ⟨response, .close, segment⟩]
        log := w.log ++ [.traceRequestResponseCycle request response (some segment)] })

/-- Modelled from the spec: `AWSXRay.getNamespace` is not in the source; it
hands out the namespace of the store or fails. -/
def getNamespace (sdk : Sdk) (w : World) : Option JSError × World :=
  (sdk.getNamespaceThrows, w.record .getNamespace)

/-- Modelled from the spec: `ns.runPromise` is not in the source; it opens a
new context that inherits the current binding, runs the callback inside it,
leaves the context when the callback's promise settles and settles the same
way (section 4.4, automatic mode). -/
def runPromise (sdk : Sdk) (fn : World → Settled × World) (w : World) : Settled × World :=
  match sdk.runPromiseThrows with
  | some e => (.rejected e, w.record .runPromise)
  | none =>
    let context := w.contexts.length
    let r := fn { w with
      contexts := w.contexts ++ [w.getSegment]
      active := context :: w.active
      log := w.log ++ [.runPromise, .enter context] }
    (r.1, { r.2 with active := r.2.active.tail, log := r.2.log ++ [.exit context] })

/-- Modelled from the spec: `AWSXRay.setSegment` is not in the source; it
binds the segment in the active context (section 4.3, step 2); without an
active context there is nothing to bind it in. -/
def setSegment (sdk : Sdk) (segment : Nat) (w : World) : Option JSError × World :=
  match sdk.setSegmentThrows with
  | some e => (some e, w.record (.setSegment segment))
  | none =>
    match w.active with
    | [] => (none, w.record (.setSegment segment))
    | c :: _ =>
      (none, { w with
        contexts := w.contexts.set c (some segment)
        log := w.log ++ [.setSegment segment] })

/-- Apply `f` to the segment `ref` of the heap. -/
def modifySegment (f : Segment → Segment) (ref : Nat) (heap : List Segment) : List Segment :=
  match heap[ref]? with
  | some s => heap.set ref (f s)
  | none => heap

/-- Modelled from the spec: `Segment.addError` is not in the source; it
appends the error to `cause.exceptions` and sets `error` (section 4.2). -/
def Segment.addError (err : JSError) (s : Segment) : Segment :=
  { s with cause := some (s.cause.getD [] ++ [err]), error := some true }

/-- The call `segment.addError(error)` on the segment `segment` of the heap. -/
def addError (segment : Nat) (error : JSError) (w : World) : World :=
  { w with
    heap := modifySegment (Segment.addError error) segment w.heap
    log := w.log ++ [.addError segment error] }

/-! ## The module `koa_mw` -/

/-- The assignment `ctx.req.segment = segment`. -/
def assignReqSegment (req segment : Nat) (w : World) : World :=
  { w with
    segmentField := (req, segment) :: w.segmentField
    log := w.log ++ [.assignReqSegment req segment] }

/-- The call `await next()`: the handler chain runs on what it sees. -/
def callNext (ctx : Ctx) (next : Handler) (w : World) : Settled × World :=
  (next (w.view ctx), w.record (.next (w.view ctx) (next (w.view ctx))))

/-- The `try` block of the middleware. -/
def tryBlock (sdk : Sdk) (ctx : Ctx) (next : Handler) (segment : Nat) (w : World) :
    Settled × World :=
  if sdk.automaticMode then
    match getNamespace sdk w with
    | (some e, w) => (.rejected e, w)
    | (none, w) =>
      runPromise sdk (fun w =>
        match setSegment sdk segment w with
        | (some e, w) => (.rejected e, w)
        | (none, w) => callNext ctx next w) w
  else
    callNext ctx next (assignReqSegment ctx.req segment w)

/-- The function `async (ctx, next) => ...` that `createMiddlewareSegment`
returns: how its promise settles, and the world it leaves. -/
def middleware (sdk : Sdk) (ctx : Ctx) (next : Handler) (w : World) : Settled × World :=
  match traceRequestResponseCycle sdk ctx.request ctx.response w with
  | (.error e, w) => (.rejected e, w)
  | (.ok segment, w) =>
    match tryBlock sdk ctx next segment w with
    | (.fulfilled, w) => (.fulfilled, w)
    | (.rejected error, w) => (.fulfilled, addError segment error w)

/-- The type of a middleware function. -/
abbrev Middleware := Sdk → Ctx → Handler → World → Settled × World

/-- The error thrown for a missing default name. -/
def configError : JSError :=
  ⟨"Default segment name was not supplied.  Please provide a string."⟩

/-- The method `createMiddlewareSegment (defaultName)` of the module. -/
def createMiddlewareSegment (defaultName : JSVal) (w : World) :
    Except JSError (World × Middleware) :=
  if !defaultName.truthy || defaultName.typeof != "string" then
    .error configError
  else
    .ok (setDefaultName defaultName w, middleware)

/-- The object `koaMW` that the module exports: its own properties. -/
def koaMW : List (String × (JSVal → World → Except JSError (World × Middleware))) :=
  [("createMiddlewareSegment", createMiddlewareSegment)]

/-- The error of calling a property that is not a function. -/
def notAFunction (key : String) : JSError :=
  ⟨"koaMW." ++ key ++ " is not a function"⟩

/-- The call `koaMW[key](arg)`: a `TypeError` when the property is absent. -/
def callMethod (key : String) (arg : JSVal) (w : World) :
    Except JSError (World × Middleware) :=
  match koaMW.lookup key with
  | some f => f arg w
  | none => .error (notAFunction key)

/-! ## Completion of the response -/

/-- Modelled from the spec: the status derivation is not in the source; codes
400 to 499 set `error`, 429 also sets `throttle`, codes from 500 on set
`fault`, every other code leaves the flags as they are (section 4.2). -/
def applyStatus (status : Nat) (s : Segment) : Segment :=
  let s := if status = 429 then { s with throttle := some true } else s
  if 400 ≤ status ∧ status ≤ 499 then { s with error := some true }
  else if 500 ≤ status then { s with fault := some true }
  else s

/-- Modelled from the spec: `Segment.close` is not in the source; it ends the
segment (section 4.2). -/
def Segment.close (s : Segment) : Segment :=
  { s with inProgress := false }

/-- Modelled from the spec: the completion observer is not in the source; the
first one to fire applies the flags of the status code and closes the segment,
a later one finds the segment closed and does nothing (section 4.3, step 4). -/
def endSegment (status : Nat) (s : Segment) : Segment :=
  if s.inProgress then (applyStatus status s).close else s

/-- One observer is notified that `response` fires `event`: it runs if it is
registered on that response for that notification. -/
def notify (response : Nat) (event : ResponseEvent) (status : Nat)
    (heap : List Segment) (o : Observer) : List Segment :=
  if o.response = response ∧ o.event = event then
    modifySegment (endSegment status) o.segment heap
  else heap

/-- The response object `response` fires `event` with the status code
`status`: the observers are notified in the order of registration. -/
def emit (response : Nat) (event : ResponseEvent) (status : Nat) (w : World) : World :=
  { w with heap := w.observers.foldl (notify response event status) w.heap }

/-- A world in which nothing has happened yet. -/
def World.empty : World :=
  { defaultName := none, heap := [], observers := [], segmentField := [],
    contexts := [], active := [], log := [] }

/-! ## Handler chains that write to segments -/

/-- The downstream handler chain `next` together with what it does to the
segments: application code reaches the segment of its request through
`ctx.req.segment` or the store lookup and may record on it, so the chain
takes what it sees and the segments as they are and gives how its promise
settles and the segments as it leaves them. -/
abbrev Chain := View → List Segment → Settled × List Segment

/-- A handler chain that leaves the segments alone. -/
def Handler.toChain (next : Handler) : Chain :=
  fun v heap => (next v, heap)

/-- The call `await next()` for a chain that may write to the segments. -/
def callChain (ctx : Ctx) (chain : Chain) (w : World) : Settled × World :=
  ((chain (w.view ctx) w.heap).1,
    { w with
      heap := (chain (w.view ctx) w.heap).2
      log := w.log ++ [.next (w.view ctx) (chain (w.view ctx) w.heap).1] })

/-- The `try` block of the middleware, for a chain that may write to the
segments. -/
def tryChain (sdk : Sdk) (ctx : Ctx) (chain : Chain) (segment : Nat) (w : World) :
    Settled × World :=
  if sdk.automaticMode then
    match getNamespace sdk w with
    | (some e, w) => (.rejected e, w)
    | (none, w) =>
      runPromise sdk (fun w =>
        match setSegment sdk segment w with
        | (some e, w) => (.rejected e, w)
        | (none, w) => callChain ctx chain w) w
  else
    callChain ctx chain (assignReqSegment ctx.req segment w)

/-- The function `async (ctx, next) => ...` for a chain that may write to the
segments; on a chain that leaves them alone it is `middleware`. -/
def middlewareChain (sdk : Sdk) (ctx : Ctx) (chain : Chain) (w : World) : Settled × World :=
  match traceRequestResponseCycle sdk ctx.request ctx.response w with
  | (.error e, w) => (.rejected e, w)
  | (.ok segment, w) =>
    match tryChain sdk ctx chain segment w with
    | (.fulfilled, w) => (.fulfilled, w)
    | (.rejected error, w) => (.fulfilled, addError segment error w)

/-! ## Reading the log -/

/-- Whether a call is `segment.addError`. -/
def Event.isAddError : Event → Bool
  | .addError _ _ => true
  | _ => false

/-- Whether a call is `await next()`. -/
def Event.isNext : Event → Bool
  | .next _ _ => true
  | _ => false

/-- Whether a call is `traceRequestResponseCycle`. -/
def Event.isTrace : Event → Bool
  | .traceRequestResponseCycle _ _ _ => true
  | _ => false

/-- Whether a call touches the namespace of the store. -/
def Event.isNamespace : Event → Bool
  | .getNamespace => true
  | .runPromise => true
  | .enter _ => true
  | .exit _ => true
  | .setSegment _ => true
  | _ => false

/-- The first failure among the collaborators that bind the segment, in the
order in which the middleware calls them. -/
def Sdk.bindingFailure (sdk : Sdk) : Option JSError :=
  match sdk.getNamespaceThrows with
  | some e => some e
  | none =>
    match sdk.runPromiseThrows with
    | some e => some e
    | none => sdk.setSegmentThrows

/-- No collaborator of the SDK throws. -/
def Sdk.noThrow (sdk : Sdk) : Prop :=
  sdk.traceThrows = none ∧ sdk.bindingFailure = none

instance (sdk : Sdk) : Decidable sdk.noThrow := by
  unfold Sdk.noThrow; infer_instance

/-! ## Concrete inputs -/

/-- An SDK in manual mode whose collaborators work. -/
def manualSdk : Sdk := ⟨false, none, none, none, none⟩

/-- An SDK in automatic mode whose collaborators work. -/
def automaticSdk : Sdk := ⟨true, none, none, none, none⟩

/-- The context of a request. -/
def ctx0 : Ctx := ⟨1, 2, 3⟩

/-- An application error. -/
def boom : JSError := ⟨"boom"⟩

/-- A failure inside the tracing SDK. -/
def tracingDown : JSError := ⟨"tracing is down"⟩

/-- An SDK whose `traceRequestResponseCycle` throws. -/
def traceDownSdk : Sdk := ⟨false, some tracingDown, none, none, none⟩

/-- An SDK in automatic mode whose `setSegment` throws. -/
def setSegmentDownSdk : Sdk := ⟨true, none, none, none, some tracingDown⟩

/-- A handler chain that completes. -/
def okHandler : Handler := fun _ => .fulfilled

/-- A handler chain that raises `boom`. -/
def failingHandler : Handler := fun _ => .rejected boom

/-- A handler chain that handles an error of its own, records it on
`ctx.req.segment` with `addError`, and completes. -/
def recordingChain : Chain := fun v heap =>
  match v.reqSegment with
  | some segment => (.fulfilled, modifySegment (Segment.addError boom) segment heap)
  | none => (.fulfilled, heap)

/-! ## The heap -/

theorem getElem?_modifySegment (f : Segment → Segment) (ref i : Nat) (heap : List Segment) :
    (modifySegment f ref heap)[i]? = if ref = i then (heap[i]?).map f else heap[i]? := by
  unfold modifySegment
  split
  · rename_i s hs
    by_cases h : ref = i
    · subst h
      have hlt : ref < heap.length := by
        rcases List.getElem?_eq_some.1 hs with ⟨hlt, _⟩
        exact hlt
      simp [hs, List.getElem?_set_self, hlt]
    · simp [h, List.getElem?_set_ne]
  · rename_i hs
    by_cases h : ref = i
    · subst h
      simp [hs]
    · simp [h]

/-! ## Construction of the middleware -/

/-- C1: `createMiddlewareSegment(defaultName)` throws the configuration error
exactly when `defaultName` is absent, falsy or not a string, and returns the
middleware function exactly when `defaultName` is a non-empty string. -/
theorem createMiddlewareSegment_throws_iff (defaultName : JSVal) (w : World) :
    (createMiddlewareSegment defaultName w = .error configError ↔
      (defaultName = .undefined ∨ defaultName.truthy = false ∨
        defaultName.typeof ≠ "string")) ∧
    (createMiddlewareSegment defaultName w = .ok (setDefaultName defaultName w, middleware) ↔
      ∃ s, s ≠ "" ∧ defaultName = .string s) := by
  cases defaultName <;> simp [createMiddlewareSegment, JSVal.truthy, JSVal.typeof]

/-- At the name of the tests the construction succeeds, at the empty string
and at an absent name it throws. -/
theorem createMiddlewareSegment_throws_iff_witness :
    createMiddlewareSegment (.string "defaultName") World.empty =
        .ok (setDefaultName (.string "defaultName") World.empty, middleware) ∧
      createMiddlewareSegment (.string "") World.empty = .error configError ∧
      createMiddlewareSegment .undefined World.empty = .error configError :=
  ⟨(createMiddlewareSegment_throws_iff _ _).2.2 ⟨"defaultName", by decide, rfl⟩,
    (createMiddlewareSegment_throws_iff _ _).1.2 (Or.inr (Or.inl rfl)),
    (createMiddlewareSegment_throws_iff _ _).1.2 (Or.inl rfl)⟩

/-! ## Errors of the handler chain -/

/-- C2, as the code has it: when the handler chain raises `e`, the middleware
records `e` with `addError` as its last call and its promise fulfils; the
error is not signalled to the caller of the middleware. -/
theorem middleware_fulfils_when_next_raises (sdk : Sdk) (ctx : Ctx) (next : Handler)
    (w : World) (v : View) (e : JSError)
    (h : Event.next v (.rejected e) ∈ newEvents w (middleware sdk ctx next w).2) :
    (middleware sdk ctx next w).1 = .fulfilled ∧
      (newEvents w (middleware sdk ctx next w).2).getLast? =
        some (.addError w.heap.length e) := by
  rcases sdk with ⟨auto, t, g, r, s⟩
  cases auto <;> cases t <;> cases g <;> cases r <;> cases s <;>
    simp [middleware, tryBlock, traceRequestResponseCycle, callNext, assignReqSegment,
      World.record, newEvents, getNamespace, runPromise, setSegment, addError] at h ⊢
  all_goals (generalize next _ = r at h ⊢; cases r <;> simp at h ⊢)
  all_goals exact h.2.symm

/-- In manual mode a handler chain raising `boom` leaves a fulfilled promise. -/
theorem middleware_fulfils_when_next_raises_witness :
    (middleware manualSdk ctx0 failingHandler World.empty).1 = .fulfilled ∧
      (newEvents World.empty (middleware manualSdk ctx0 failingHandler World.empty).2).getLast? =
        some (.addError World.empty.heap.length boom) :=
  middleware_fulfils_when_next_raises manualSdk ctx0 failingHandler World.empty
    ⟨some 0, none, none⟩ boom (by decide)

/-- C2, counterexample: in manual mode and in automatic mode the handler chain
raises `boom`, and the promise of the middleware is fulfilled, not rejected
with `boom`. -/
theorem next_error_not_resignalled :
    (Event.next ⟨some 0, none, none⟩ (.rejected boom) ∈
        newEvents World.empty (middleware manualSdk ctx0 failingHandler World.empty).2 ∧
      (middleware manualSdk ctx0 failingHandler World.empty).1 ≠ .rejected boom) ∧
    (Event.next ⟨none, some 0, some 0⟩ (.rejected boom) ∈
        newEvents World.empty (middleware automaticSdk ctx0 failingHandler World.empty).2 ∧
      (middleware automaticSdk ctx0 failingHandler World.empty).1 ≠ .rejected boom) := by
  decide

/-- C3: when the handler chain raises `e`, the middleware calls `addError`
once, on the segment that `traceRequestResponseCycle` created for the request
and with `e`; afterwards that segment has `e` in `cause.exceptions` and
`error` set. -/
theorem addError_once_when_next_raises (sdk : Sdk) (ctx : Ctx) (next : Handler) (w : World)
    (v : View) (e : JSError)
    (h : Event.next v (.rejected e) ∈ newEvents w (middleware sdk ctx next w).2) :
    Event.traceRequestResponseCycle ctx.request ctx.response (some w.heap.length) ∈
        newEvents w (middleware sdk ctx next w).2 ∧
      (newEvents w (middleware sdk ctx next w).2).filter Event.isAddError =
        [.addError w.heap.length e] ∧
      ∃ s, (middleware sdk ctx next w).2.heap[w.heap.length]? = some s ∧
        s.cause = some [e] ∧ s.error = some true := by
  rcases sdk with ⟨auto, t, g, r, s⟩
  cases auto <;> cases t <;> cases g <;> cases r <;> cases s <;>
    simp [middleware, tryBlock, traceRequestResponseCycle, callNext, assignReqSegment,
      World.record, newEvents, getNamespace, runPromise, setSegment, addError] at h ⊢
  all_goals (generalize next _ = r at h ⊢; cases r <;> simp at h ⊢)
  all_goals
    simp [List.filter, Event.isAddError, getElem?_modifySegment, Segment.addError,
      Segment.init, h.2]

/-- In automatic mode a handler chain raising `boom` has `boom` recorded once. -/
theorem addError_once_when_next_raises_witness :
    Event.traceRequestResponseCycle ctx0.request ctx0.response (some World.empty.heap.length) ∈
        newEvents World.empty (middleware automaticSdk ctx0 failingHandler World.empty).2 ∧
      (newEvents World.empty (middleware automaticSdk ctx0 failingHandler World.empty).2).filter
          Event.isAddError = [.addError World.empty.heap.length boom] ∧
      ∃ s, (middleware automaticSdk ctx0 failingHandler World.empty).2.heap[
          World.empty.heap.length]? = some s ∧ s.cause = some [boom] ∧ s.error = some true :=
  addError_once_when_next_raises automaticSdk ctx0 failingHandler World.empty
    ⟨none, some 0, some 0⟩ boom (by decide)

/-! ## Failures of the tracing collaborators -/

/-- C4, as the code has it: a failure of `traceRequestResponseCycle` rejects
the promise of the middleware with that error; once the segment exists, a
failure of `getNamespace`, `runPromise` or `setSegment` is caught, recorded on
the segment with `addError`, and the promise fulfils.  In both cases the
handler chain is not invoked. -/
theorem tracing_failure_behaviour (sdk : Sdk) (ctx : Ctx) (next : Handler) (w : World)
    (e : JSError) :
    (sdk.traceThrows = some e →
      (middleware sdk ctx next w).1 = .rejected e ∧
        (newEvents w (middleware sdk ctx next w).2).filter Event.isNext = []) ∧
    (sdk.traceThrows = none → sdk.automaticMode = true → sdk.bindingFailure = some e →
      (middleware sdk ctx next w).1 = .fulfilled ∧
        (newEvents w (middleware sdk ctx next w).2).filter Event.isNext = [] ∧
        (newEvents w (middleware sdk ctx next w).2).filter Event.isAddError =
          [.addError w.heap.length e]) := by
  rcases sdk with ⟨auto, t, g, r, s⟩
  cases auto <;> cases t <;> cases g <;> cases r <;> cases s <;>
    simp [middleware, tryBlock, traceRequestResponseCycle, callNext, assignReqSegment,
      World.record, newEvents, getNamespace, runPromise, setSegment, addError,
      Sdk.bindingFailure, List.filter, Event.isNext, Event.isAddError]

/-- A throwing `traceRequestResponseCycle` and a throwing `setSegment`. -/
theorem tracing_failure_behaviour_witness :
    ((middleware traceDownSdk ctx0 okHandler World.empty).1 = .rejected tracingDown ∧
      (newEvents World.empty (middleware traceDownSdk ctx0 okHandler World.empty).2).filter
        Event.isNext = []) ∧
    ((middleware setSegmentDownSdk ctx0 okHandler World.empty).1 = .fulfilled ∧
      (newEvents World.empty (middleware setSegmentDownSdk ctx0 okHandler World.empty).2).filter
        Event.isNext = [] ∧
      (newEvents World.empty (middleware setSegmentDownSdk ctx0 okHandler World.empty).2).filter
        Event.isAddError = [.addError World.empty.heap.length tracingDown]) :=
  ⟨(tracing_failure_behaviour traceDownSdk ctx0 okHandler World.empty tracingDown).1 rfl,
    (tracing_failure_behaviour setSegmentDownSdk ctx0 okHandler World.empty tracingDown).2
      rfl rfl rfl⟩

/-- C4, counterexample: when `setSegment` throws, the handler chain is never
invoked; when `traceRequestResponseCycle` throws, the handler chain is never
invoked and the promise of the middleware is rejected with the tracing
failure. -/
theorem tracing_failure_stops_the_chain :
    (newEvents World.empty (middleware setSegmentDownSdk ctx0 okHandler World.empty).2).filter
        Event.isNext = [] ∧
      (newEvents World.empty (middleware traceDownSdk ctx0 okHandler World.empty).2).filter
        Event.isNext = [] ∧
      (middleware traceDownSdk ctx0 okHandler World.empty).1 = .rejected tracingDown := by
  decide

/-! ## Propagation of the segment -/

/-- C5: in manual mode the first three calls are the creation of the segment,
the assignment of it to `ctx.req.segment` and the invocation of the handler
chain, which sees that segment as `ctx.req.segment`; no call touches the
namespace, whose contexts stay as they were. -/
theorem manual_mode_attaches_segment (sdk : Sdk) (ctx : Ctx) (next : Handler) (w : World)
    (hm : sdk.automaticMode = false) (ht : sdk.traceThrows = none) :
    (newEvents w (middleware sdk ctx next w).2).take 3 =
        [.traceRequestResponseCycle ctx.request ctx.response (some w.heap.length),
          .assignReqSegment ctx.req w.heap.length,
          .next ⟨some w.heap.length, w.getSegment, w.active.head?⟩
            (next ⟨some w.heap.length, w.getSegment, w.active.head?⟩)] ∧
      (middleware sdk ctx next w).2.segmentOf ctx.req = some w.heap.length ∧
      (newEvents w (middleware sdk ctx next w).2).filter Event.isNamespace = [] ∧
      (middleware sdk ctx next w).2.contexts = w.contexts ∧
      (middleware sdk ctx next w).2.active = w.active := by
  rcases sdk with ⟨auto, t, g, r, s⟩
  simp only at hm ht
  subst hm ht
  simp [middleware, tryBlock, traceRequestResponseCycle, callNext, assignReqSegment,
    World.record, newEvents, addError, World.view, World.segmentOf, World.getSegment]
  generalize next _ = r
  cases r <;> simp [List.filter, Event.isNamespace]

/-- Manual mode on the request of the tests. -/
theorem manual_mode_attaches_segment_witness :
    (newEvents World.empty (middleware manualSdk ctx0 okHandler World.empty).2).take 3 =
        [.traceRequestResponseCycle ctx0.request ctx0.response (some World.empty.heap.length),
          .assignReqSegment ctx0.req World.empty.heap.length,
          .next ⟨some World.empty.heap.length, World.empty.getSegment, World.empty.active.head?⟩
            (okHandler
              ⟨some World.empty.heap.length, World.empty.getSegment,
                World.empty.active.head?⟩)] ∧
      (middleware manualSdk ctx0 okHandler World.empty).2.segmentOf ctx0.req =
        some World.empty.heap.length ∧
      (newEvents World.empty (middleware manualSdk ctx0 okHandler World.empty).2).filter
        Event.isNamespace = [] ∧
      (middleware manualSdk ctx0 okHandler World.empty).2.contexts = World.empty.contexts ∧
      (middleware manualSdk ctx0 okHandler World.empty).2.active = World.empty.active :=
  manual_mode_attaches_segment manualSdk ctx0 okHandler World.empty rfl rfl

/-- C6, as the code has it: in automatic mode the `segment` properties of
objects stay as they were on every request; and when no collaborator throws,
the calls begin with the creation of the segment, `getNamespace`, `runPromise`
entering a new context, `setSegment` on the created segment, then the handler
chain, which runs in that context and sees the created segment as the current
one, then the exit of the context. -/
theorem automatic_mode_binds_segment (sdk : Sdk) (ctx : Ctx) (next : Handler) (w : World)
    (ha : sdk.automaticMode = true) :
    (middleware sdk ctx next w).2.segmentField = w.segmentField ∧
      (sdk.noThrow →
        (newEvents w (middleware sdk ctx next w).2).take 7 =
            [.traceRequestResponseCycle ctx.request ctx.response (some w.heap.length),
              .getNamespace, .runPromise, .enter w.contexts.length,
              .setSegment w.heap.length,
              .next ⟨w.segmentOf ctx.req, some w.heap.length, some w.contexts.length⟩
                (next ⟨w.segmentOf ctx.req, some w.heap.length, some w.contexts.length⟩),
              .exit w.contexts.length] ∧
          (middleware sdk ctx next w).2.contexts[w.contexts.length]? =
            some (some w.heap.length)) := by
  rcases sdk with ⟨auto, t, g, r, s⟩
  simp only at ha
  subst ha
  constructor
  · cases t <;> cases g <;> cases r <;> cases s <;>
      simp [middleware, tryBlock, traceRequestResponseCycle, callNext,
        World.record, getNamespace, runPromise, setSegment, addError]
    all_goals (generalize next _ = r; cases r <;> simp)
  · rintro ⟨ht, hb⟩
    simp only at ht
    subst ht
    cases g <;> cases r <;> cases s <;> simp [Sdk.bindingFailure] at hb
    simp [middleware, tryBlock, traceRequestResponseCycle, callNext,
      World.record, newEvents, getNamespace, runPromise, setSegment, addError, World.view,
      World.segmentOf, World.getSegment]
    generalize next _ = r
    cases r <;> simp

/-- Automatic mode on the request of the tests. -/
theorem automatic_mode_binds_segment_witness :
    (middleware automaticSdk ctx0 okHandler World.empty).2.segmentField =
        World.empty.segmentField ∧
      (newEvents World.empty (middleware automaticSdk ctx0 okHandler World.empty).2).take 7 =
        [.traceRequestResponseCycle ctx0.request ctx0.response (some World.empty.heap.length),
          .getNamespace, .runPromise, .enter World.empty.contexts.length,
          .setSegment World.empty.heap.length,
          .next
            ⟨World.empty.segmentOf ctx0.req, some World.empty.heap.length,
              some World.empty.contexts.length⟩
            (okHandler
              ⟨World.empty.segmentOf ctx0.req, some World.empty.heap.length,
                some World.empty.contexts.length⟩),
          .exit World.empty.contexts.length] ∧
      (middleware automaticSdk ctx0 okHandler World.empty).2.contexts[
          World.empty.contexts.length]? = some (some World.empty.heap.length) :=
  ⟨(automatic_mode_binds_segment automaticSdk ctx0 okHandler World.empty rfl).1,
    (automatic_mode_binds_segment automaticSdk ctx0 okHandler World.empty rfl).2 (by decide)⟩

/-- C6, counterexample: in automatic mode with a throwing `setSegment` the
segment of the request is created and a context is opened, but the segment is
never bound in that context, it is not the current segment afterwards, and
the handler chain is not invoked. -/
theorem automatic_mode_without_binding :
    Event.traceRequestResponseCycle ctx0.request ctx0.response (some 0) ∈
        newEvents World.empty (middleware setSegmentDownSdk ctx0 okHandler World.empty).2 ∧
      Event.enter 0 ∈
        newEvents World.empty (middleware setSegmentDownSdk ctx0 okHandler World.empty).2 ∧
      (middleware setSegmentDownSdk ctx0 okHandler World.empty).2.contexts = [none] ∧
      (middleware setSegmentDownSdk ctx0 okHandler World.empty).2.getSegment = none ∧
      (newEvents World.empty
        (middleware setSegmentDownSdk ctx0 okHandler World.empty).2).all
          (fun ev => !ev.isNext) = true := by
  decide

/-! ## One segment and one invocation per request -/

/-- C10: when no collaborator throws, in either mode, the calls that create a
segment or invoke the handler chain are exactly two, in this order: one
`traceRequestResponseCycle` on `ctx.request` and `ctx.response`, then one
`next`. -/
theorem one_segment_then_one_next (sdk : Sdk) (ctx : Ctx) (next : Handler) (w : World)
    (hs : sdk.noThrow) :
    ∃ v, (newEvents w (middleware sdk ctx next w).2).filter
        (fun ev => ev.isTrace || ev.isNext) =
      [.traceRequestResponseCycle ctx.request ctx.response (some w.heap.length),
        .next v (next v)] := by
  rcases sdk with ⟨auto, t, g, r, s⟩
  obtain ⟨ht, hb⟩ := hs
  simp only at ht
  subst ht
  cases g <;> cases r <;> cases s <;> simp [Sdk.bindingFailure] at hb
  cases auto
  · refine ⟨⟨some w.heap.length, w.getSegment, w.active.head?⟩, ?_⟩
    simp [middleware, tryBlock, traceRequestResponseCycle, callNext, assignReqSegment,
      World.record, newEvents, addError, World.view, World.segmentOf, World.getSegment]
    generalize next _ = r
    cases r <;> simp [List.filter, Event.isTrace, Event.isNext]
  · refine ⟨⟨w.segmentOf ctx.req, some w.heap.length, some w.contexts.length⟩, ?_⟩
    simp [middleware, tryBlock, traceRequestResponseCycle, callNext,
      World.record, newEvents, getNamespace, runPromise, setSegment, addError, World.view,
      World.segmentOf, World.getSegment]
    generalize next _ = r
    cases r <;> simp [List.filter, Event.isTrace, Event.isNext]

/-- One segment and one invocation in manual mode with a failing handler. -/
theorem one_segment_then_one_next_witness :
    ∃ v, (newEvents World.empty (middleware manualSdk ctx0 failingHandler World.empty).2).filter
        (fun ev => ev.isTrace || ev.isNext) =
      [.traceRequestResponseCycle ctx0.request ctx0.response (some World.empty.heap.length),
        .next v (failingHandler v)] :=
  one_segment_then_one_next manualSdk ctx0 failingHandler World.empty (by decide)

/-! ## What the module exports -/

/-- C9, on the code: the exported object has the single property
`createMiddlewareSegment`; `openSegment` and `closeSegment` are absent, and
the call `koaMW.openSegment('defaultName')` of the tests throws. -/
theorem koaMW_lacks_openSegment :
    koaMW.map Prod.fst = ["createMiddlewareSegment"] ∧
      (koaMW.lookup "openSegment").isNone = true ∧
      (koaMW.lookup "closeSegment").isNone = true ∧
      callMethod "openSegment" (.string "defaultName") World.empty =
        .error (notAFunction "openSegment") ∧
      callMethod "createMiddlewareSegment" (.string "defaultName") World.empty =
        .ok (setDefaultName (.string "defaultName") World.empty, middleware) := by
  refine ⟨rfl, by decide, by decide, by rfl, by rfl⟩

/-! ## Completion of the response -/

theorem endSegment_endSegment (status : Nat) (s : Segment) :
    endSegment status (endSegment status s) = endSegment status s := by
  unfold endSegment
  by_cases h : s.inProgress = true <;> simp [h, Segment.close]

theorem notify_getElem? (response : Nat) (event : ResponseEvent) (status n : Nat)
    (s0 : Segment) (heap : List Segment) (o : Observer)
    (h : heap[n]? = some s0 ∨ heap[n]? = some (endSegment status s0)) :
    (notify response event status heap o)[n]? = some s0 ∨
      (notify response event status heap o)[n]? = some (endSegment status s0) := by
  unfold notify
  split
  · rw [getElem?_modifySegment]
    split
    · rcases h with h | h <;> simp [h, endSegment_endSegment]
    · exact h
  · exact h

theorem foldl_notify_getElem? (response : Nat) (event : ResponseEvent) (status n : Nat)
    (s0 : Segment) (obs : List Observer) :
    ∀ heap : List Segment,
      (heap[n]? = some s0 ∨ heap[n]? = some (endSegment status s0)) →
      ((obs.foldl (notify response event status) heap)[n]? = some s0 ∨
        (obs.foldl (notify response event status) heap)[n]? =
          some (endSegment status s0)) := by
  induction obs with
  | nil => intro heap h; exact h
  | cons o rest ih =>
    intro heap h
    exact ih _ (notify_getElem? response event status n s0 heap o h)

theorem foldl_notify_finish (response status n : Nat) (s0 : Segment) (obs : List Observer)
    (heap : List Segment) (h : heap[n]? = some s0) :
    ((obs ++ [Observer.mk response .finish n, Observer.mk response .close n]).foldl
      (notify response .finish status) heap)[n]? = some (endSegment status s0) := by
  rw [List.foldl_append]
  rcases foldl_notify_getElem? response .finish status n s0 obs heap (Or.inl h) with h1 | h1 <;>
    simp [notify, getElem?_modifySegment, h1, endSegment_endSegment]

theorem endSegment_open (status : Nat) (s : Segment) (hopen : s.inProgress = true) :
    (endSegment status s).error =
        (if 400 ≤ status ∧ status ≤ 499 then some true else s.error) ∧
      (endSegment status s).throttle =
        (if status = 429 then some true else s.throttle) ∧
      (endSegment status s).fault =
        (if 500 ≤ status then some true else s.fault) := by
  unfold endSegment applyStatus Segment.close
  simp only [hopen, if_true]
  by_cases h1 : 400 ≤ status ∧ status ≤ 499 <;> by_cases h2 : status = 429 <;>
    by_cases h3 : 500 ≤ status
  all_goals first | omega | simp [h1, h2, h3]

/-- On a handler chain that leaves the segments alone, the middleware for
chains is the middleware. -/
theorem middlewareChain_toChain (sdk : Sdk) (ctx : Ctx) (next : Handler) (w : World) :
    middlewareChain sdk ctx next.toChain w = middleware sdk ctx next w := by
  rfl

theorem middlewareChain_observers (sdk : Sdk) (ctx : Ctx) (chain : Chain) (w : World)
    (ht : sdk.traceThrows = none) :
    (middlewareChain sdk ctx chain w).2.observers = w.observers ++
      [Observer.mk ctx.response .finish w.heap.length,
        Observer.mk ctx.response .close w.heap.length] := by
  rcases sdk with ⟨auto, t, g, r, s⟩
  simp only at ht
  subst ht
  cases auto <;> cases g <;> cases r <;> cases s <;>
    simp [middlewareChain, tryChain, traceRequestResponseCycle, callChain, assignReqSegment,
      World.record, getNamespace, runPromise, setSegment, addError]
  all_goals (generalize chain _ _ = r; rcases r with ⟨r1, heap1⟩; cases r1 <;> simp)

/-- C8, as the code has it: take a request whose segment was created and is
still in progress when the response fires "finish" with the status code
`status`, `s` being the segment just before.  Afterwards the segment has
`error` set for 400 to 499, `throttle` set for 429 and `fault` set from 500
on, and a flag that the status does not set is as it was in `s`, whatever the
handler chain and the binding collaborators did.  If the handler chain
completed, `s` is the segment as the chain left it; if it did not (it raised,
or a failed binding kept it from running), `addError` has set `error` in
`s`. -/
theorem finish_sets_status_flags (sdk : Sdk) (ctx : Ctx) (chain : Chain) (w : World)
    (status : Nat) (s : Segment) (ht : sdk.traceThrows = none)
    (hs : (middlewareChain sdk ctx chain w).2.heap[w.heap.length]? = some s)
    (hopen : s.inProgress = true) :
    (∃ s1, (emit ctx.response .finish status (middlewareChain sdk ctx chain w).2).heap[
          w.heap.length]? = some s1 ∧
        s1.error = (if 400 ≤ status ∧ status ≤ 499 then some true else s.error) ∧
        s1.throttle = (if status = 429 then some true else s.throttle) ∧
        s1.fault = (if 500 ≤ status then some true else s.fault)) ∧
      (∀ v, Event.next v .fulfilled ∈ newEvents w (middlewareChain sdk ctx chain w).2 →
        (chain v (w.heap ++ [Segment.init w.defaultName])).2[w.heap.length]? = some s) ∧
      ((∀ v, Event.next v .fulfilled ∉ newEvents w (middlewareChain sdk ctx chain w).2) →
        s.error = some true) := by
  refine ⟨⟨endSegment status s, ?_, endSegment_open status s hopen⟩, ?_⟩
  · unfold emit
    simp only [middlewareChain_observers sdk ctx chain w ht]
    exact foldl_notify_finish ctx.response status w.heap.length s _ _ hs
  · rcases sdk with ⟨auto, t, g, r, ss⟩
    simp only at ht
    subst ht
    cases auto
    · simp [middlewareChain, tryChain, traceRequestResponseCycle, callChain, assignReqSegment,
        World.record, newEvents, addError] at hs ⊢
      generalize hr : chain _ _ = r at hs ⊢
      rcases r with ⟨r1, heap1⟩
      cases r1 <;> simp [getElem?_modifySegment] at hs ⊢
      · rw [hr]
        exact hs
      · obtain ⟨a, _, rfl⟩ := hs
        rfl
    · cases g
      · cases r
        · cases ss
          · simp [middlewareChain, tryChain, traceRequestResponseCycle, callChain,
              World.record, newEvents, getNamespace, runPromise, setSegment, addError] at hs ⊢
            generalize hr : chain _ _ = r at hs ⊢
            rcases r with ⟨r1, heap1⟩
            cases r1 <;> simp [getElem?_modifySegment] at hs ⊢
            · rw [hr]
              exact hs
            · obtain ⟨a, _, rfl⟩ := hs
              rfl
          · simp [middlewareChain, tryChain, traceRequestResponseCycle,
              World.record, newEvents, getNamespace, runPromise, setSegment, addError,
              getElem?_modifySegment] at hs ⊢
            subst hs
            rfl
        · simp [middlewareChain, tryChain, traceRequestResponseCycle,
            World.record, newEvents, getNamespace, runPromise, addError,
            getElem?_modifySegment] at hs ⊢
          subst hs
          rfl
      · simp [middlewareChain, tryChain, traceRequestResponseCycle,
          World.record, newEvents, getNamespace, addError,
          getElem?_modifySegment] at hs ⊢
        subst hs
        rfl

/-- Status 500 on a request whose handler chain recorded an error of its own
and completed: `fault` is set, `error` stays as the chain left it. -/
theorem finish_sets_status_flags_witness :
    (∃ s1, (emit ctx0.response .finish 500
          (middlewareChain manualSdk ctx0 recordingChain World.empty).2).heap[
            World.empty.heap.length]? = some s1 ∧
        s1.error = (if 400 ≤ 500 ∧ 500 ≤ 499 then some true
          else (Segment.addError boom (Segment.init none)).error) ∧
        s1.throttle = (if 500 = 429 then some true
          else (Segment.addError boom (Segment.init none)).throttle) ∧
        s1.fault = (if 500 ≤ 500 then some true
          else (Segment.addError boom (Segment.init none)).fault)) ∧
      (∀ v, Event.next v .fulfilled ∈
          newEvents World.empty (middlewareChain manualSdk ctx0 recordingChain World.empty).2 →
        (recordingChain v
          (World.empty.heap ++ [Segment.init World.empty.defaultName])).2[
            World.empty.heap.length]? = some (Segment.addError boom (Segment.init none))) ∧
      ((∀ v, Event.next v .fulfilled ∉
          newEvents World.empty (middlewareChain manualSdk ctx0 recordingChain World.empty).2) →
        (Segment.addError boom (Segment.init none)).error = some true) :=
  finish_sets_status_flags manualSdk ctx0 recordingChain World.empty 500
    (Segment.addError boom (Segment.init none)) rfl (by decide) rfl

/-- C8, counterexample: the response fires "finish" with status 200 and the
segment of the request has `error` set, once after a handler chain that
raised and once after a handler chain that recorded an error of its own on
the segment and completed. -/
theorem finish_with_200_after_handler_error :
    ((emit ctx0.response .finish 200
          (middlewareChain manualSdk ctx0 failingHandler.toChain World.empty).2).heap[0]?).map
        (fun s => (s.error, s.fault, s.throttle)) = some (some true, none, none) ∧
      (middlewareChain manualSdk ctx0 recordingChain World.empty).1 = .fulfilled ∧
      ((emit ctx0.response .finish 200
          (middlewareChain manualSdk ctx0 recordingChain World.empty).2).heap[0]?).map
        (fun s => (s.error, s.fault, s.throttle)) = some (some true, none, none) := by
  decide

end KoaMW
